import Mathlib

/-!
Verification development for the glass streaming request orchestration
subsystem.  The definitions below are shallow embeddings of the JavaScript
source: the OpenAI provider adapter (payload shaping, STT socket handler),
the settings-layer reasoning-effort normalizer, and the Ask session
orchestrator (prompt resolution, token ceiling, multimodal fallback, SSE
stream processing, abort-controller supersession).
-/

namespace Glass

/-! ### JavaScript string primitives

Executable models of the V8 string builtins used by the source
(`toLowerCase`, `trim`, `startsWith`, `includes`, `slice(n)`, `split`,
`join`).  They are written over `List Char` so every proof can evaluate
them by kernel reduction. -/

/-- Model of `String.prototype.toLowerCase` (ASCII-relevant part). -/
def jsToLower (s : String) : String := (s.toList.map Char.toLower).asString

/-- Model of `String.prototype.trim`. -/
def jsTrim (s : String) : String :=
  (((s.toList.dropWhile Char.isWhitespace).reverse.dropWhile Char.isWhitespace).reverse).asString

/-- Model of `String.prototype.startsWith`. -/
def jsStartsWith (s pat : String) : Bool := pat.toList.isPrefixOf s.toList

/-- Substring occurrence test on character lists: `pat` occurs as a prefix of
some suffix of the scanned list. -/
def charsInclude (pat : List Char) : List Char → Bool
  | [] => pat.isPrefixOf []
  | c :: cs => pat.isPrefixOf (c :: cs) || charsInclude pat cs

/-- Model of `String.prototype.includes` (substring test). -/
def jsIncludes (s pat : String) : Bool := charsInclude pat.toList s.toList

/-- Model of `String.prototype.slice(n)` for a nonnegative start index. -/
def jsDrop (s : String) (n : Nat) : String := (s.toList.drop n).asString

/-- Model of `String.prototype.split(sep)` on a single-character separator,
character-list form.  `"".split(c) = [""]` and a trailing separator yields a
trailing empty fragment, exactly as in JavaScript. -/
def jsSplitChar (sep : Char) : List Char → List (List Char)
  | [] => [[]]
  | c :: cs =>
    let r := jsSplitChar sep cs
    if c = sep then [] :: r
    else
      match r with
      | h :: t => (c :: h) :: t
      | [] => [[c]]

/-- Model of `String.prototype.split(sep)` on a single-character separator. -/
def jsSplit (s : String) (sep : Char) : List String :=
  (jsSplitChar sep s.toList).map List.asString

/-- Model of `Array.prototype.join(sep)` for an array of strings. -/
def jsJoin (sep : String) : List String → String
  | [] => ""
  | [x] => x
  | x :: y :: xs => x ++ sep ++ jsJoin sep (y :: xs)

/-! ### JSON value model

`JsValue` models the values `JSON.parse` can produce.  Property access on a
non-object, or a missing property, models JavaScript `undefined`
(`Option.none`). -/

/-- A JSON value as produced by `JSON.parse`. -/
inductive JsValue : Type where
  | jnull : JsValue
  | jbool : Bool → JsValue
  | jnum : Rat → JsValue
  | jstr : String → JsValue
  | jarr : List JsValue → JsValue
  | jobj : List (String × JsValue) → JsValue

/-- Model of the JavaScript `typeof` operator on parsed JSON values
(`typeof null` and `typeof` of an array are both `"object"`). -/
def jsTypeof : JsValue → String
  | .jnull => "object"
  | .jbool _ => "boolean"
  | .jnum _ => "number"
  | .jstr _ => "string"
  | .jarr _ => "object"
  | .jobj _ => "object"

/-- Model of JavaScript truthiness on parsed JSON values. -/
def jsTruthy : JsValue → Bool
  | .jnull => false
  | .jbool b => b
  | .jnum n => decide (n ≠ 0)
  | .jstr s => decide (s ≠ "")
  | .jarr _ => true
  | .jobj _ => true

/-- Property access `v.k`: `none` models `undefined`. -/
def jget (v : JsValue) (k : String) : Option JsValue :=
  match v with
  | .jobj fs => List.lookup k fs
  | _ => none

/-- Optional-chaining property access `v?.k`. -/
def ojget (v : Option JsValue) (k : String) : Option JsValue :=
  match v with
  | some w => jget w k
  | none => none

/-- Optional-chaining index access `v?.[i]`. -/
def oidx (v : Option JsValue) (i : Nat) : Option JsValue :=
  match v with
  | some (.jarr xs) => xs[i]?
  | _ => none

/-- Extract a JavaScript string (`typeof x === 'string'` guard). -/
def asStr : Option JsValue → Option String
  | some (.jstr s) => some s
  | _ => none

/-- Check `v.type === tag` for a string-valued `type` property. -/
def isTypeTag (e : JsValue) (tag : String) : Bool :=
  match jget e "type" with
  | some (.jstr s) => decide (s = tag)
  | _ => false

/-! ### Provider payload adapter (src/unnamed/part_003, OpenAI provider module) -/

namespace Adapter

/-- Role/content message as handed to the adapter.  The source's guards for
non-array message lists and non-object entries correspond to inputs that have
no well-typed counterpart here. -/
inductive ContentPart : Type where
  | textPart : String → ContentPart
  | imageUrl : String → ContentPart
deriving DecidableEq

/-- Message content: either a plain string or an ordered list of typed parts. -/
inductive MsgContent : Type where
  | str : String → MsgContent
  | parts : List ContentPart → MsgContent
deriving DecidableEq

/-- A chat message. -/
structure ChatMsg : Type where
  role : String
  content : MsgContent
deriving DecidableEq

/-- Source `isGpt5Model` (part_003 lines 3-5): identifier, lower-cased, starts
with the literal prefix token. -/
def isGpt5Model (model : String) : Bool :=
  jsStartsWith (jsToLower model) "gpt-5"

/-- Source `normalizeMessagesForModel` (part_003 lines 7-18): for the gpt-5
family only, `system`-role messages are rewritten to `developer`-role. -/
def normalizeMessagesForModel (model : String) (messages : List ChatMsg) : List ChatMsg :=
  if !isGpt5Model model then messages
  else
    messages.map fun message =>
      if message.role = "system" then { message with role := "developer" } else message

/-- The token-limit fragment of a request body: at most one of the three
provider token fields is present. -/
inductive TokenPayload : Type where
  | empty : TokenPayload
  | max_tokens : Rat → TokenPayload
  | max_completion_tokens : Rat → TokenPayload
  | max_output_tokens : Rat → TokenPayload
deriving DecidableEq

/-- Source `buildTokenPayload` (part_003 lines 20-26), chat-completions
dialect.  `none` and `some 0` model the source's `!maxTokens` falsy guard
(non-numeric or zero). -/
def buildTokenPayload (model : String) (maxTokens : Option Rat)
    (forceLegacyMaxTokens : Bool) : TokenPayload :=
  match maxTokens with
  | none => .empty
  | some n =>
    if n = 0 then .empty
    else if forceLegacyMaxTokens then .max_tokens n
    else if isGpt5Model model then .max_completion_tokens n
    else .max_tokens n

/-- Source `normalizeReasoningEffort` (part_003 lines 28-34).  `none` input
models a non-string argument (the source's `typeof` guard yields the empty
candidate there); `none` output models the source's `null`. -/
def normalizeReasoningEffort (reasoningEffort : Option String) : Option String :=
  let candidate :=
    match reasoningEffort with
    | some s => jsTrim (jsToLower s)
    | none => ""
  if candidate = "minimal" then some "none"
  else if candidate = "x-high" ∨ candidate = "x_high" ∨ candidate = "x high" then some "xhigh"
  else if (["none", "low", "medium", "high", "xhigh"] : List String).contains candidate then
    some candidate
  else none

/-- Source `buildReasoningPayload` (part_003 lines 36-40): the
`reasoning.effort` fragment, present only for the gpt-5 family and only when
normalization yields a value. -/
def buildReasoningPayload (model : String) (reasoningEffort : Option String) : Option String :=
  if !isGpt5Model model then none
  else
    match normalizeReasoningEffort reasoningEffort with
    | some effort => some effort
    | none => none

/-- Source `buildResponsesTokenPayload` (part_003 lines 42-45), responses
dialect. -/
def buildResponsesTokenPayload (maxTokens : Option Rat) : TokenPayload :=
  match maxTokens with
  | none => .empty
  | some n => if n = 0 then .empty else .max_output_tokens n

/-- Source `buildTemperaturePayload` (part_003 lines 47-52): the temperature
fragment, omitted for the gpt-5 family. -/
def buildTemperaturePayload (model : String) (temperature : Option Rat) : Option Rat :=
  match temperature with
  | none => none
  | some t => if isGpt5Model model then none else some t

/-- Call site in `createStreamingLLM`, direct path (part_003 line 472): the
responses dialect token payload. -/
def directStreamTokenPayload (maxTokens : Option Rat) : TokenPayload :=
  buildResponsesTokenPayload maxTokens

/-- Call site in `createStreamingLLM`, Portkey relay path (part_003 line 498):
legacy token-limit field is always forced. -/
def portkeyStreamTokenPayload (model : String) (maxTokens : Option Rat) : TokenPayload :=
  buildTokenPayload model maxTokens true

/-- A transcription frame as delivered to the `onmessage` callback: the parsed
payload together with the provider identity stamped onto it
(`msg.provider = 'openai'`). -/
structure TaggedMessage : Type where
  payload : JsValue
  provider : String

/-- Source `createSTT` inbound handler (part_003 lines 308-320).  `parse`
stands for `JSON.parse`, with `none` modelling a parse exception.  The result
is the argument passed to `callbacks.onmessage`, or `none` when the frame is
dropped. -/
def sttOnMessage (parse : String → Option JsValue) (data : String) : Option TaggedMessage :=
  if data = "" ∨ data = "null" ∨ data = "[DONE]" then none
  else
    match parse data with
    | none => none
    | some msg =>
      if jsTruthy msg = false ∨ jsTypeof msg ≠ "object" then none
      else some ⟨msg, "openai"⟩

end Adapter

/-! ### Settings layer (src/src/features/settings/settingsService.js) -/

namespace SettingsService

/-- Source `REASONING_EFFORT_VALUES` (settingsService.js line 205). -/
def REASONING_EFFORT_VALUES : List String := ["none", "low", "medium", "high", "xhigh"]

/-- Source `normalizeReasoningEffort` (settingsService.js lines 207-212):
same candidate computation as the adapter's, but unrecognized values default
to `"medium"`. -/
def normalizeReasoningEffort (value : Option String) : String :=
  let candidate :=
    match value with
    | some s => jsTrim (jsToLower s)
    | none => ""
  if candidate = "minimal" then "none"
  else if candidate = "x-high" ∨ candidate = "x_high" ∨ candidate = "x high" then "xhigh"
  else if REASONING_EFFORT_VALUES.contains candidate then candidate
  else "medium"

end SettingsService

/-! ### Session orchestrator (src/unnamed/part_004, AskService) -/

namespace AskService

/-- Source `VOICE_DRAFT_MAX_AGE_MS` (part_004 line 38). -/
def VOICE_DRAFT_MAX_AGE_MS : Int := 10 * 60 * 1000

/-- The source's `typeof userPrompt === 'string' ? userPrompt.trim() : ''`
(part_004 line 166); `none` models a non-string argument. -/
def typedPromptOf : Option String → String
  | some s => jsTrim s
  | none => ""

/-- Source `AskService._resolveEffectivePrompt` (part_004 lines 165-176).
`voiceDraft` and `voiceDraftTimestamp` are the state fields (both initialized
to `""` and `0`; `ts || 0` is the identity on integer timestamps), `now` is
`Date.now()`. -/
def resolveEffectivePrompt (userPrompt : Option String) (voiceDraft : String)
    (voiceDraftTimestamp : Int) (now : Int) : String :=
  let typedPrompt := typedPromptOf userPrompt
  if typedPrompt ≠ "" then typedPrompt
  else
    let vd := jsTrim voiceDraft
    let draftAgeMs := now - voiceDraftTimestamp
    if vd ≠ "" ∧ draftAgeMs ≤ VOICE_DRAFT_MAX_AGE_MS then vd
    else ""

/-- The generic request substituted for an empty effective prompt
(part_004 line 252). -/
def GENERIC_REQUEST : String :=
  "Analyze the current screen and provide the most relevant help right now."

/-- Source `sendMessage` line 252: `effectivePrompt || <generic request>`. -/
def userRequestOf (effectivePrompt : String) : String :=
  if effectivePrompt ≠ "" then effectivePrompt else GENERIC_REQUEST

/-- Source `AskService._formatConversationForPrompt` (part_004 lines 238-243);
`none` models a missing (undefined) list. -/
def formatConversationForPrompt (conversationTexts : Option (List String)) : String :=
  match conversationTexts with
  | none => "No conversation history available."
  | some ts =>
    if ts.length = 0 then "No conversation history available."
    else jsJoin "\n" (ts.drop (ts.length - 30))

/-- The inline gpt-5 family re-check in `sendMessage` (part_004 line 298). -/
def askIsGpt5Model (model : String) : Bool :=
  jsStartsWith (jsToLower model) "gpt-5"

/-- Source `sendMessage` lines 299-300: the reasoning-aware token floor. -/
def defaultMinTokens (model : String) (reasoningEffort : String) : Rat :=
  if askIsGpt5Model model && (reasoningEffort == "high" || reasoningEffort == "xhigh")
  then 8192 else 4096

/-- Source `sendMessage` lines 296-303: the effective output-token ceiling.
`configuredMaxTokens = none` models `Number(appSettings?.maxTokens)` being
non-finite (missing setting, `NaN`, infinities). -/
def effectiveMaxTokens (model : String) (reasoningEffort : String)
    (configuredMaxTokens : Option Rat) : Rat :=
  match configuredMaxTokens with
  | some c =>
    if c > 0 then max c (defaultMinTokens model reasoningEffort)
    else defaultMinTokens model reasoningEffort
  | none => defaultMinTokens model reasoningEffort

/-- Truthiness of the screenshot slot (`screenshotBase64` is `null` or a
base64 string). -/
def screenshotTruthy : Option String → Bool
  | some s => decide (s ≠ "")
  | none => false

/-- Source `sendMessage` lines 308-323: the initial message list; the image
part is pushed only when a screenshot was captured. -/
def buildAskMessages (systemPrompt userRequest : String)
    (screenshotBase64 : Option String) : List Adapter.ChatMsg :=
  let base := [Adapter.ContentPart.textPart ("User Request: " ++ userRequest)]
  let userParts :=
    match screenshotBase64 with
    | some b =>
      if b ≠ "" then base ++ [Adapter.ContentPart.imageUrl ("data:image/jpeg;base64," ++ b)]
      else base
    | none => base
  [⟨"system", .str systemPrompt⟩, ⟨"user", .parts userParts⟩]

/-- Source `sendMessage` lines 360-366: the image-free plain-text retry
message list. -/
def textOnlyAskMessages (systemPrompt userRequest : String) : List Adapter.ChatMsg :=
  [⟨"system", .str systemPrompt⟩, ⟨"user", .str ("User Request: " ++ userRequest)⟩]

/-- Source `AskService._isMultimodalError` (part_004 lines 591-603); `none`
models a missing `error.message`. -/
def isMultimodalError (message : Option String) : Bool :=
  let errorMessage :=
    match message with
    | some s => jsToLower s
    | none => ""
  jsIncludes errorMessage "vision" ||
  jsIncludes errorMessage "image" ||
  jsIncludes errorMessage "multimodal" ||
  jsIncludes errorMessage "unsupported" ||
  jsIncludes errorMessage "image_url" ||
  jsIncludes errorMessage "400" ||
  jsIncludes errorMessage "invalid" ||
  jsIncludes errorMessage "not supported"

/-- Source `sendMessage` lines 335-389: the try/catch around the streaming
call.  `firstOutcome`/`retryOutcome` abstract the transport result of
`streamChat` (`Except.error e` models a thrown error with message `e`).  The
first component lists the message list of every attempt actually issued, in
order; the second is the overall outcome (an error here propagates to the
outer catch). -/
def streamAttempts (systemPrompt userRequest : String) (screenshotBase64 : Option String)
    (firstOutcome : Except String Unit) (retryOutcome : Except String Unit) :
    List (List Adapter.ChatMsg) × Except String Unit :=
  let first := buildAskMessages systemPrompt userRequest screenshotBase64
  match firstOutcome with
  | .ok _ => ([first], .ok ())
  | .error e =>
    if screenshotTruthy screenshotBase64 = true ∧ isMultimodalError (some e) = true then
      ([first, textOnlyAskMessages systemPrompt userRequest], retryOutcome)
    else ([first], .error e)

/-- Any message carrying an image part. -/
def msgHasImage (m : Adapter.ChatMsg) : Bool :=
  match m.content with
  | .str _ => false
  | .parts ps =>
    ps.any fun p =>
      match p with
      | .imageUrl _ => true
      | .textPart _ => false

/-- Mapper applied to parts of a `choices[0].delta.content` array
(part_004 lines 524-533). -/
def tokenPartText (part : JsValue) : String :=
  match part with
  | .jstr s => s
  | _ =>
    if jsTruthy part = false ∨ jsTypeof part ≠ "object" then ""
    else
      match asStr (jget part "text") with
      | some t => t
      | none =>
        match asStr (jget part "delta") with
        | some d => d
        | none =>
          match jget part "text" with
          | some tv =>
            if jsTruthy tv then (asStr (jget tv "value")).getD "" else ""
          | none => ""

/-- Source `AskService._extractTokenFromStreamEvent` (part_004 lines 497-536).
Guarded early returns become a chain of `Option` fallbacks; the
`response.output_text.delta` branch repeats the top-level string-`delta`
check and therefore can never fire after it, but is kept for fidelity. -/
def extractTokenFromStreamEvent (eventPayload : JsValue) : String :=
  if jsTruthy eventPayload = false ∨ jsTypeof eventPayload ≠ "object" then ""
  else
    match asStr (jget eventPayload "delta") with
    | some d => d
    | none =>
      let fromTypedDelta :=
        if isTypeTag eventPayload "response.output_text.delta" then
          asStr (jget eventPayload "delta")
        else none
      match fromTypedDelta with
      | some d => d
      | none =>
        let fromAdded :=
          if isTypeTag eventPayload "response.content_part.added" then
            asStr (ojget (jget eventPayload "part") "text")
          else none
        match fromAdded with
        | some t => t
        | none =>
          let fromPartDelta :=
            if isTypeTag eventPayload "response.content_part.delta" then
              match jget eventPayload "delta" with
              | some (.jstr s) => some s
              | d => asStr (ojget d "text")
            else none
          match fromPartDelta with
          | some t => t
          | none =>
            match ojget (ojget (oidx (jget eventPayload "choices") 0) "delta") "content" with
            | some (.jstr s) => s
            | some (.jarr parts) => jsJoin "" (parts.map tokenPartText)
            | _ => ""

/-- Mapper applied to parts of an `output_text` array (part_004 lines 549-557). -/
def completedPartText (part : JsValue) : String :=
  match part with
  | .jstr s => s
  | _ =>
    if jsTruthy part = false ∨ jsTypeof part ≠ "object" then ""
    else (asStr (jget part "text")).getD ""

/-- Mapper applied to parts of the structured `output[].content[]` arrays
(part_004 lines 562-568). -/
def outputContentPartText (part : JsValue) : String :=
  if jsTruthy part = false ∨ jsTypeof part ≠ "object" then ""
  else
    match asStr (jget part "text") with
    | some t => t
    | none =>
      match jget part "text" with
      | some tv => if jsTruthy tv then (asStr (jget tv "value")).getD "" else ""
      | none => ""

/-- The `content` array of one `output` item, `[]` when absent or not an
array (part_004 line 562). -/
def itemContentList (item : JsValue) : List JsValue :=
  match jget item "content" with
  | some (.jarr xs) => xs
  | _ => []

/-- Source `AskService._extractCompletedTextFromStreamEvent`
(part_004 lines 538-571). -/
def extractCompletedTextFromStreamEvent (eventPayload : JsValue) : String :=
  if jsTruthy eventPayload = false ∨ jsTypeof eventPayload ≠ "object" then ""
  else
    match jget eventPayload "response" with
    | none => ""
    | some response =>
      if jsTruthy response = false ∨ jsTypeof response ≠ "object" then ""
      else
        match jget response "output_text" with
        | some (.jstr s) => jsTrim s
        | some (.jarr parts) => jsTrim (jsJoin "" (parts.map completedPartText))
        | _ =>
          let output :=
            match jget response "output" with
            | some (.jarr items) => items
            | _ => []
          jsTrim (jsJoin "" ((output.map itemContentList).flatten.map outputContentPartText))

/-- Source `AskService._extractErrorFromStreamEvent` (part_004 lines 573-585).
A non-string truthy `message` (possible in JavaScript, impossible for the
provider wire format) is conflated with the generic fallback text. -/
def extractErrorFromStreamEvent (eventPayload : JsValue) : String :=
  if jsTruthy eventPayload = false ∨ jsTypeof eventPayload ≠ "object" then ""
  else if isTypeTag eventPayload "error" then
    match asStr (ojget (jget eventPayload "error") "message") with
    | some m => if m ≠ "" then m else "Unknown streaming error"
    | none => "Unknown streaming error"
  else if isTypeTag eventPayload "response.failed" then
    match asStr (ojget (ojget (jget eventPayload "response") "error") "message") with
    | some m => if m ≠ "" then m else "Response failed"
    | none => "Response failed"
  else ""

/-! #### The `_processStream` read loop (part_004 lines 420-495) -/

/-- Loop-local accumulator of `_processStream`: `fullResponse`, the SSE line
buffer, and the completed-text snapshot. -/
structure StreamState : Type where
  fullResponse : String
  sseBuffer : String
  completedResponseText : String
deriving DecidableEq

/-- Initial accumulator (part_004 lines 422-424). -/
def initStreamState : StreamState := ⟨"", "", ""⟩

/-- Body of the inner `for (const line of lines)` loop (part_004 lines
439-468) for one line.  The returned flag is `true` when a decoded error
event raised (`throw new Error(streamError)`).  `parse` stands for
`JSON.parse`, `none` modelling the caught parse exception. -/
def processDataLine (parse : String → Option JsValue) (st : StreamState)
    (line : String) : StreamState × Bool :=
  let trimmedLine := jsTrim line
  if jsStartsWith trimmedLine "data:" = false then (st, false)
  else
    let data := jsTrim (jsDrop trimmedLine 5)
    if data = "[DONE]" then (st, false)
    else
      match parse data with
      | none => (st, false)
      | some json =>
        if extractErrorFromStreamEvent json ≠ "" then (st, true)
        else
          let token := extractTokenFromStreamEvent json
          let st :=
            if token ≠ "" then { st with fullResponse := st.fullResponse ++ token } else st
          let st :=
            if st.completedResponseText = "" then
              { st with completedResponseText := extractCompletedTextFromStreamEvent json }
            else st
          (st, false)

/-- Folds `processDataLine` over the complete lines of a chunk, stopping at
the first raised error event. -/
def processLines (parse : String → Option JsValue) :
    StreamState → List String → StreamState × Bool
  | st, [] => (st, false)
  | st, l :: ls =>
    match processDataLine parse st l with
    | (st', true) => (st', true)
    | (st', false) => processLines parse st' ls

/-- One observation of `reader.read()`: a decoded chunk, or a rejection
(genuine stream failure or cancellation).  The end of the list models
`done = true`. -/
inductive ReadStep : Type where
  | chunk : String → ReadStep
  | readThrow : ReadStep
deriving DecidableEq

/-- The `while (true)` read loop (part_004 lines 430-469): buffers the chunk,
splits on newlines, keeps the trailing fragment, processes complete lines.
The flag reports whether the loop exited by throwing. -/
def runRead (parse : String → Option JsValue) :
    StreamState → List ReadStep → StreamState × Bool
  | st, [] => (st, false)
  | st, .readThrow :: _ => (st, true)
  | st, .chunk c :: rest =>
    let buf := st.sseBuffer ++ c
    let lines := jsSplit buf '\n'
    let st := { st with sseBuffer := lines.getLastD "" }
    match processLines parse st lines.dropLast with
    | (st', true) => (st', true)
    | (st', false) => runRead parse st' rest

/-- One `askRepository.addAiMessage` call issued by the finalizer. -/
structure PersistCall : Type where
  sessionId : Nat
  role : String
  content : String
  model : String
deriving DecidableEq

/-- Observable outcome of `_processStream`: the finalized response text, the
persistence calls issued (in order), whether a stream-error event was sent to
the window, and whether `_processStream` itself threw. -/
structure StreamRunResult : Type where
  finalResponse : String
  persisted : List PersistCall
  errorSentToWindow : Bool
  rethrown : Bool
deriving DecidableEq

/-- Source `AskService._processStream` (part_004 lines 420-495): the read
loop, its catch block (logs on cancellation, sends a stream-error event
otherwise, never rethrows) and the finally block (completed-text fallback,
single conditional persistence whose failure — `dbSaveFails` — is caught and
only logged). -/
def processStream (parse : String → Option JsValue) (steps : List ReadStep)
    (sessionId : Nat) (aborted : Bool) (assistantModel : String)
    (_dbSaveFails : Bool) : StreamRunResult :=
  let r := runRead parse initStreamState steps
  let fullResponse :=
    if r.1.fullResponse = "" ∧ r.1.completedResponseText ≠ "" then r.1.completedResponseText
    else r.1.fullResponse
  let persisted :=
    if fullResponse ≠ "" then [⟨sessionId, "assistant", fullResponse, assistantModel⟩]
    else []
  { finalResponse := fullResponse
    persisted := persisted
    errorSentToWindow := r.2 && !aborted
    rethrown := false }

/-! #### Cancellation-token lifecycle (part_004 lines 129-130, 207-211,
265-269, 345-349, 377-381)

Controllers are numbered in creation order.  `live` is the
`this.abortController` slot; `aborted` records every controller whose
`abort()` ran; `readers` records controllers on whose signal a request
registered its `reader.cancel` abort listener; `cancelledReaders` records
controllers whose registered reader was actually cancelled.  Per the WHATWG
`AbortSignal` semantics the source relies on, `abort()` fires the listeners
registered so far, and a listener added to an already-aborted signal never
fires. -/

structure ControllerState : Type where
  nextId : Nat
  live : Option Nat
  aborted : List Nat
  readers : List Nat
  cancelledReaders : List Nat
deriving DecidableEq

/-- Constructor state (part_004 line 130): no controller yet. -/
def initControllers : ControllerState := ⟨0, none, [], [], []⟩

/-- Effect of `controller.abort(reason)` on controller `c`: it is recorded
aborted, and a reader-cancel listener registered on its signal (if any) runs
`reader.cancel(...)` now. -/
def abortController (st : ControllerState) (c : Nat) : ControllerState :=
  { st with
    aborted := c :: st.aborted
    cancelledReaders :=
      if c ∈ st.readers then c :: st.cancelledReaders else st.cancelledReaders }

/-- Observable orchestrator operations touching the cancellation token. -/
inductive AskOp : Type where
  | newRequest : AskOp
  | attachReader : Nat → AskOp
  | closeWindow : AskOp
deriving DecidableEq

/-- One operation.  `newRequest` is `sendMessage` lines 265-268: abort the
previous controller (if any), then install a fresh one.  `attachReader c` is
lines 345-349 run by the request holding controller `c`: it registers the
abort listener that would cancel its reader — but if `c` was already aborted
the listener never fires, so no cancellation is ever recorded for it.
`closeWindow` is `closeAskWindow` lines 208-211: abort and clear the slot. -/
def stepOp (st : ControllerState) : AskOp → ControllerState
  | .newRequest =>
    let st' :=
      match st.live with
      | some c => abortController st c
      | none => st
    { st' with live := some st.nextId, nextId := st.nextId + 1 }
  | .attachReader c => { st with readers := c :: st.readers }
  | .closeWindow =>
    match st.live with
    | some c => { abortController st c with live := none }
    | none => st

/-- Run a trace of operations from the constructor state. -/
def runOps (ops : List AskOp) : ControllerState :=
  ops.foldl stepOp initControllers

/-- Inductive invariant of the controller lifecycle. -/
def ControllerInv (s : ControllerState) : Prop :=
  (∀ c ∈ s.aborted, c < s.nextId) ∧
  (∀ c, s.live = some c → c < s.nextId ∧ c ∉ s.aborted) ∧
  (∀ c, c < s.nextId → s.live ≠ some c → c ∈ s.aborted)

end AskService

/-! ### Concrete fixtures used by witnesses and counterexamples -/

/-- The SSE data payload `{"delta":"Hel"}`. -/
def jsonHel : String := "\x7b\"delta\":\"Hel\"\x7d"

/-- The SSE data payload `{"delta":"lo"}`. -/
def jsonLo : String := "\x7b\"delta\":\"lo\"\x7d"

/-- Concrete stand-in for `JSON.parse` on the fixture inputs; it agrees with
ECMA-404 JSON semantics on each string it accepts. -/
def parseFixture : String → Option JsValue := fun s =>
  if s = jsonHel then some (JsValue.jobj [("delta", JsValue.jstr "Hel")])
  else if s = jsonLo then some (JsValue.jobj [("delta", JsValue.jstr "lo")])
  else if s = "[1]" then some (JsValue.jarr [JsValue.jnum 1])
  else none

/-! ### Claims -/

/-- C3: for every model whose identifier case-insensitively starts with
"gpt-5": (1) system-role messages are rewritten to developer-role, and only
for such models; (2) the temperature field is omitted from the built request
body, while for all other models a provided numeric temperature is included;
(3) the reasoning-effort fragment is attached only for such models and only
when the effort normalizes to a non-null value (and then carries exactly the
normalized value). -/
theorem C3_gpt5_family_gating :
    ∀ (model : String) (messages : List Adapter.ChatMsg) (t : Rat) (eff : Option String),
      Adapter.isGpt5Model model = jsStartsWith (jsToLower model) "gpt-5" ∧
      (Adapter.isGpt5Model model = true →
        Adapter.normalizeMessagesForModel model messages
          = messages.map
              (fun m => if m.role = "system" then { m with role := "developer" } else m) ∧
        Adapter.buildTemperaturePayload model (some t) = none ∧
        Adapter.buildReasoningPayload model eff = Adapter.normalizeReasoningEffort eff) ∧
      (Adapter.isGpt5Model model = false →
        Adapter.normalizeMessagesForModel model messages = messages ∧
        Adapter.buildTemperaturePayload model (some t) = some t ∧
        Adapter.buildReasoningPayload model eff = none) := by
  intro model messages t eff
  refine ⟨rfl, fun h => ⟨?_, ?_, ?_⟩, fun h => ⟨?_, ?_, ?_⟩⟩ <;>
    cases hn : Adapter.normalizeReasoningEffort eff <;>
      simp [Adapter.normalizeMessagesForModel, Adapter.buildTemperaturePayload,
            Adapter.buildReasoningPayload, h, hn]

/-- Witness for C3 at concrete models of each family. -/
theorem C3_gpt5_family_gating_witness :
    Adapter.buildTemperaturePayload "GPT-5-mini" (some 1) = none ∧
    Adapter.buildTemperaturePayload "gpt-4.1" (some 1) = some 1 ∧
    Adapter.buildReasoningPayload "gpt-5" (some "x-high") = some "xhigh" ∧
    Adapter.buildReasoningPayload "gpt-4.1" (some "x-high") = none := by
  refine ⟨?_, ?_, ?_, ?_⟩
  · exact ((C3_gpt5_family_gating "GPT-5-mini" [] 1 none).2.1 (by decide)).2.1
  · exact ((C3_gpt5_family_gating "gpt-4.1" [] 1 none).2.2 (by decide)).2.1
  · exact (((C3_gpt5_family_gating "gpt-5" [] 1 (some "x-high")).2.1 (by decide)).2.2).trans
      (by decide)
  · exact ((C3_gpt5_family_gating "gpt-4.1" [] 1 (some "x-high")).2.2 (by decide)).2.2

/-- C4: the responses dialect always uses max_output_tokens and never
max_tokens (or max_completion_tokens); the chat-completions dialect uses
max_completion_tokens exactly for gpt-5-family models and max_tokens
otherwise, except under legacy-forcing, where every model gets max_tokens;
the relay/Portkey streaming call site always forces legacy, and the direct
streaming call site always uses the responses dialect builder. -/
theorem C4_token_limit_field_selection :
    ∀ (model : String) (n : Rat) (mt : Option Rat),
      (∀ k, Adapter.buildResponsesTokenPayload mt ≠ Adapter.TokenPayload.max_tokens k) ∧
      (∀ k, Adapter.buildResponsesTokenPayload mt ≠
              Adapter.TokenPayload.max_completion_tokens k) ∧
      (n ≠ 0 → Adapter.buildResponsesTokenPayload (some n) =
        Adapter.TokenPayload.max_output_tokens n) ∧
      (n ≠ 0 → Adapter.buildTokenPayload model (some n) false =
        (if Adapter.isGpt5Model model then Adapter.TokenPayload.max_completion_tokens n
         else Adapter.TokenPayload.max_tokens n)) ∧
      (n ≠ 0 → Adapter.buildTokenPayload model (some n) true =
        Adapter.TokenPayload.max_tokens n) ∧
      Adapter.portkeyStreamTokenPayload model mt = Adapter.buildTokenPayload model mt true ∧
      Adapter.directStreamTokenPayload mt = Adapter.buildResponsesTokenPayload mt := by
  intro model n mt
  refine ⟨?_, ?_, fun h => ?_, fun h => ?_, fun h => ?_, rfl, rfl⟩
  · cases mt
    · simp [Adapter.buildResponsesTokenPayload]
    · simp only [Adapter.buildResponsesTokenPayload]
      split <;> simp
  · cases mt
    · simp [Adapter.buildResponsesTokenPayload]
    · simp only [Adapter.buildResponsesTokenPayload]
      split <;> simp
  · simp [Adapter.buildResponsesTokenPayload, h]
  · simp [Adapter.buildTokenPayload, h]
  · simp [Adapter.buildTokenPayload, h]

/-- Witness for C4 with a concrete positive token limit. -/
theorem C4_token_limit_field_selection_witness :
    Adapter.buildResponsesTokenPayload (some 2048) =
      Adapter.TokenPayload.max_output_tokens 2048 ∧
    Adapter.buildTokenPayload "gpt-5" (some 2048) false =
      Adapter.TokenPayload.max_completion_tokens 2048 ∧
    Adapter.buildTokenPayload "gpt-5" (some 2048) true =
      Adapter.TokenPayload.max_tokens 2048 := by
  refine ⟨?_, ?_, ?_⟩
  · exact (C4_token_limit_field_selection "gpt-5" 2048 (some 2048)).2.2.1 (by decide)
  · exact ((C4_token_limit_field_selection "gpt-5" 2048 (some 2048)).2.2.2.1
      (by decide)).trans (by decide)
  · exact (C4_token_limit_field_selection "gpt-5" 2048 (some 2048)).2.2.2.2.1 (by decide)

/-- C5: reasoning-effort normalization is idempotent; "Minimal", "MINIMAL",
" minimal " all normalize to "none"; "x-high", "x_high", "x high" normalize
to "xhigh"; the five canonical values pass through; and on every input the
settings layer equals the adapter's result with null defaulted to "medium"
(so an unrecognized input yields null at the adapter and "medium" at the
settings layer). -/
theorem C5_reasoning_effort_normalization :
    (∀ s v : String, Adapter.normalizeReasoningEffort (some s) = some v →
        Adapter.normalizeReasoningEffort (some v) = some v) ∧
    Adapter.normalizeReasoningEffort (some "Minimal") = some "none" ∧
    Adapter.normalizeReasoningEffort (some "MINIMAL") = some "none" ∧
    Adapter.normalizeReasoningEffort (some " minimal ") = some "none" ∧
    Adapter.normalizeReasoningEffort (some "x-high") = some "xhigh" ∧
    Adapter.normalizeReasoningEffort (some "x_high") = some "xhigh" ∧
    Adapter.normalizeReasoningEffort (some "x high") = some "xhigh" ∧
    Adapter.normalizeReasoningEffort (some "none") = some "none" ∧
    Adapter.normalizeReasoningEffort (some "low") = some "low" ∧
    Adapter.normalizeReasoningEffort (some "medium") = some "medium" ∧
    Adapter.normalizeReasoningEffort (some "high") = some "high" ∧
    Adapter.normalizeReasoningEffort (some "xhigh") = some "xhigh" ∧
    (∀ s : Option String, SettingsService.normalizeReasoningEffort s =
        (Adapter.normalizeReasoningEffort s).getD "medium") := by
  refine ⟨?_, by decide, by decide, by decide, by decide, by decide, by decide,
          by decide, by decide, by decide, by decide, by decide, ?_⟩
  · intro s v h
    simp only [Adapter.normalizeReasoningEffort] at h
    split_ifs at h with h1 h2 h3
    · cases h; decide
    · cases h; decide
    · cases h
      have hmem : jsTrim (jsToLower s) = "none" ∨ jsTrim (jsToLower s) = "low" ∨
          jsTrim (jsToLower s) = "medium" ∨ jsTrim (jsToLower s) = "high" ∨
          jsTrim (jsToLower s) = "xhigh" := by
        simpa [List.contains] using h3
      rcases hmem with h | h | h | h | h <;> rw [h] <;> decide
  · intro s
    simp only [SettingsService.normalizeReasoningEffort, Adapter.normalizeReasoningEffort,
      SettingsService.REASONING_EFFORT_VALUES]
    split_ifs <;> rfl

/-- Witness for C5's idempotence at a concrete input. -/
theorem C5_reasoning_effort_normalization_witness :
    Adapter.normalizeReasoningEffort (some "x high") = some "xhigh" ∧
    Adapter.normalizeReasoningEffort (some "xhigh") = some "xhigh" := by
  refine ⟨C5_reasoning_effort_normalization.2.2.2.2.2.2.1, ?_⟩
  exact C5_reasoning_effort_normalization.1 "x high" "xhigh" (by decide)

/-- C6: an explicit non-empty trimmed user prompt always wins over any voice
draft; with no explicit prompt, a non-empty trimmed draft is used exactly
when its age is within the 10-minute staleness window (in particular at the
boundary minus one millisecond, but not at the boundary plus one); otherwise
the effective prompt is empty and the generic analyze-current-context
request is substituted. -/
theorem C6_effective_prompt_resolution :
    ∀ (userPrompt : Option String) (voiceDraft : String) (ts now : Int),
      AskService.VOICE_DRAFT_MAX_AGE_MS = 10 * 60 * 1000 ∧
      (AskService.typedPromptOf userPrompt ≠ "" →
        AskService.resolveEffectivePrompt userPrompt voiceDraft ts now =
          AskService.typedPromptOf userPrompt) ∧
      (AskService.typedPromptOf userPrompt = "" →
        (jsTrim voiceDraft ≠ "" → now - ts ≤ AskService.VOICE_DRAFT_MAX_AGE_MS →
          AskService.resolveEffectivePrompt userPrompt voiceDraft ts now = jsTrim voiceDraft) ∧
        ((jsTrim voiceDraft = "" ∨ AskService.VOICE_DRAFT_MAX_AGE_MS < now - ts) →
          AskService.resolveEffectivePrompt userPrompt voiceDraft ts now = "" ∧
          AskService.userRequestOf
              (AskService.resolveEffectivePrompt userPrompt voiceDraft ts now) =
            AskService.GENERIC_REQUEST)) := by
  intro userPrompt voiceDraft ts now
  refine ⟨rfl, fun h => ?_, fun h => ⟨fun hv hage => ?_, fun hstale => ?_⟩⟩
  · simp [AskService.resolveEffectivePrompt, h]
  · simp [AskService.resolveEffectivePrompt, h, hv, hage]
  · have hres : AskService.resolveEffectivePrompt userPrompt voiceDraft ts now = "" := by
      rcases hstale with hv | hage
      · simp [AskService.resolveEffectivePrompt, h, hv]
      · simp [AskService.resolveEffectivePrompt, h, not_le.mpr hage]
    exact ⟨hres, by simp [hres, AskService.userRequestOf]⟩

/-- Witness for C6: a fresh explicit prompt beats a fresh draft; with no
explicit prompt a draft aged one unit under the boundary is used, and one
aged one unit over it falls back to the generic request. -/
theorem C6_effective_prompt_resolution_witness :
    AskService.resolveEffectivePrompt (some " fix this ") "draft words" 0 0 = "fix this" ∧
    AskService.resolveEffectivePrompt none "draft words" 0
        (AskService.VOICE_DRAFT_MAX_AGE_MS - 1) = "draft words" ∧
    AskService.resolveEffectivePrompt none "draft words" 0
        (AskService.VOICE_DRAFT_MAX_AGE_MS + 1) = "" ∧
    AskService.userRequestOf
        (AskService.resolveEffectivePrompt none "draft words" 0
          (AskService.VOICE_DRAFT_MAX_AGE_MS + 1)) = AskService.GENERIC_REQUEST := by
  refine ⟨?_, ?_, ?_, ?_⟩
  · exact (C6_effective_prompt_resolution (some " fix this ") "draft words" 0 0).2.1
      (by decide)
  · exact ((C6_effective_prompt_resolution none "draft words" 0
      (AskService.VOICE_DRAFT_MAX_AGE_MS - 1)).2.2 (by decide)).1 (by decide) (by decide)
  · exact (((C6_effective_prompt_resolution none "draft words" 0
      (AskService.VOICE_DRAFT_MAX_AGE_MS + 1)).2.2 (by decide)).2 (by decide)).1
  · exact (((C6_effective_prompt_resolution none "draft words" 0
      (AskService.VOICE_DRAFT_MAX_AGE_MS + 1)).2.2 (by decide)).2 (by decide)).2

/-- C7: the output-token floor is 8192 exactly when the model id starts
case-insensitively with "gpt-5" and the effort is "high" or "xhigh", else
4096; with no configured maxTokens the floor is the result (8192 for
"gpt-5-mini" with "xhigh", 4096 for "gpt-4.1"); a configured positive finite
maxTokens is raised to at least the floor via max. -/
theorem C7_effective_token_ceiling :
    AskService.effectiveMaxTokens "gpt-5-mini" "xhigh" none = 8192 ∧
    AskService.effectiveMaxTokens "gpt-4.1" "xhigh" none = 4096 ∧
    (∀ model eff, AskService.defaultMinTokens model eff =
      if AskService.askIsGpt5Model model && (eff == "high" || eff == "xhigh")
      then 8192 else 4096) ∧
    (∀ model eff, AskService.askIsGpt5Model model = jsStartsWith (jsToLower model) "gpt-5" ∧
      AskService.effectiveMaxTokens model eff none = AskService.defaultMinTokens model eff) ∧
    (∀ (model eff : String) (c : Rat), 0 < c →
      AskService.effectiveMaxTokens model eff (some c) =
        max c (AskService.defaultMinTokens model eff) ∧
      AskService.defaultMinTokens model eff ≤
        AskService.effectiveMaxTokens model eff (some c)) := by
  refine ⟨by decide, by decide, fun model eff => rfl, fun model eff => ⟨rfl, rfl⟩,
    fun model eff c hc => ?_⟩
  have h : AskService.effectiveMaxTokens model eff (some c) =
      max c (AskService.defaultMinTokens model eff) := by
    simp [AskService.effectiveMaxTokens, hc]
  exact ⟨h, by rw [h]; exact le_max_right _ _⟩

/-- Witness for C7: a configured value of 100 is raised to the 8192 floor. -/
theorem C7_effective_token_ceiling_witness :
    (0 : Rat) < 100 ∧
    AskService.effectiveMaxTokens "gpt-5" "high" (some 100) =
      max 100 (AskService.defaultMinTokens "gpt-5" "high") := by
  exact ⟨by decide, (C7_effective_token_ceiling.2.2.2.2 "gpt-5" "high" 100 (by decide)).1⟩

/-- C10: the prompt-formatting step includes only the last 30 entries of the
conversation-history list, joined by newlines (at most 30 entries ever
appear), and for a missing or empty list returns the fixed fallback
string. -/
theorem C10_history_truncation :
    AskService.formatConversationForPrompt none = "No conversation history available." ∧
    AskService.formatConversationForPrompt (some []) =
      "No conversation history available." ∧
    (∀ ts : List String, ts ≠ [] →
      AskService.formatConversationForPrompt (some ts) =
        jsJoin "\n" (ts.drop (ts.length - 30)) ∧
      (ts.drop (ts.length - 30)).length ≤ 30) := by
  refine ⟨rfl, rfl, fun ts hne => ⟨?_, ?_⟩⟩
  · simp [AskService.formatConversationForPrompt, List.length_eq_zero, hne]
  · simp only [List.length_drop]
    omega

/-- Witness for C10 on a 31-entry history: the first entry is dropped. -/
theorem C10_history_truncation_witness :
    AskService.formatConversationForPrompt (some ("zero" :: (List.range 30).map toString)) =
      jsJoin "\n" ((List.range 30).map toString) := by
  have h := (C10_history_truncation.2.2 ("zero" :: (List.range 30).map toString)
    (by decide)).1
  simpa using h

/-- C8: the multimodal-fallback retry happens at most once, and exactly when
a screenshot was attached and the failure message contains one of the eight
keywords; the retry request is the image-free plain-text message list; a
failure with no image attached (whose request carries no image part)
propagates directly with no second attempt, as does a failure whose message
matches no keyword. -/
theorem C8_multimodal_fallback :
    ∀ (sys req : String) (shot : Option String) (e : String)
      (retryOutcome : Except String Unit),
      AskService.streamAttempts sys req shot (.ok ()) retryOutcome =
        ([AskService.buildAskMessages sys req shot], .ok ()) ∧
      (AskService.streamAttempts sys req shot (.error e) retryOutcome).1.length ≤ 2 ∧
      (AskService.screenshotTruthy shot = true → AskService.isMultimodalError (some e) = true →
        AskService.streamAttempts sys req shot (.error e) retryOutcome =
          ([AskService.buildAskMessages sys req shot,
            AskService.textOnlyAskMessages sys req], retryOutcome) ∧
        ∀ m ∈ AskService.textOnlyAskMessages sys req, AskService.msgHasImage m = false) ∧
      (AskService.screenshotTruthy shot = false →
        AskService.streamAttempts sys req shot (.error e) retryOutcome =
          ([AskService.buildAskMessages sys req shot], .error e) ∧
        ∀ m ∈ AskService.buildAskMessages sys req shot, AskService.msgHasImage m = false) ∧
      (AskService.isMultimodalError (some e) = false →
        AskService.streamAttempts sys req shot (.error e) retryOutcome =
          ([AskService.buildAskMessages sys req shot], .error e)) := by
  intro sys req shot e retryOutcome
  refine ⟨rfl, ?_, fun hshot herr => ⟨?_, ?_⟩, fun hshot => ⟨?_, ?_⟩, fun herr => ?_⟩
  · simp only [AskService.streamAttempts]
    split <;> simp
  · simp [AskService.streamAttempts, hshot, herr]
  · intro m hm
    simp only [AskService.textOnlyAskMessages, List.mem_cons, List.not_mem_nil,
      or_false] at hm
    rcases hm with rfl | rfl <;> rfl
  · simp [AskService.streamAttempts, hshot]
  · intro m hm
    cases shot with
    | none =>
      simp only [AskService.buildAskMessages, List.mem_cons, List.not_mem_nil,
        or_false] at hm
      rcases hm with rfl | rfl <;> rfl
    | some b =>
      have hb : b = "" := by
        by_contra hb
        simp [AskService.screenshotTruthy, hb] at hshot
      subst hb
      simp only [AskService.buildAskMessages, if_neg (by simp : ¬("" : String) ≠ ""),
        List.mem_cons, List.not_mem_nil, or_false] at hm
      rcases hm with rfl | rfl <;> rfl
  · simp [AskService.streamAttempts, herr]

/-- Witness for C8: a 400-style failure on an image-bearing request retries
once with the plain-text message list; the same failure with no screenshot
propagates directly. -/
theorem C8_multimodal_fallback_witness :
    AskService.streamAttempts "sys" "req" (some "IMG")
        (.error "Unsupported image type") (.ok ()) =
      ([AskService.buildAskMessages "sys" "req" (some "IMG"),
        AskService.textOnlyAskMessages "sys" "req"], .ok ()) ∧
    AskService.streamAttempts "sys" "req" none (.error "Unsupported image type") (.ok ()) =
      ([AskService.buildAskMessages "sys" "req" none], .error "Unsupported image type") := by
  refine ⟨?_, ?_⟩
  · exact ((C8_multimodal_fallback "sys" "req" (some "IMG") "Unsupported image type"
      (.ok ())).2.2.1 (by decide) (by decide)).1
  · exact ((C8_multimodal_fallback "sys" "req" none "Unsupported image type"
      (.ok ())).2.2.2.1 (by decide)).1

/-- C1: for every read-loop history — including those that end in a thrown
read error — stream finalization never rethrows, persists the accumulated
text exactly once (a single assistant-role call tagged with the model) when
it is non-empty, falls back to the completed-text snapshot exactly when no
incremental token was accumulated, skips persistence entirely when the final
text is empty, and behaves identically whether or not the persistence write
fails. -/
theorem C1_stream_finalization :
    ∀ (parse : String → Option JsValue) (steps : List AskService.ReadStep)
      (sessionId : Nat) (aborted : Bool) (assistantModel : String) (dbSaveFails : Bool),
      let r := AskService.processStream parse steps sessionId aborted assistantModel dbSaveFails
      let loopExit := AskService.runRead parse AskService.initStreamState steps
      r.rethrown = false ∧
      r.persisted.length ≤ 1 ∧
      r.finalResponse =
        (if loopExit.1.fullResponse = "" ∧ loopExit.1.completedResponseText ≠ ""
         then loopExit.1.completedResponseText else loopExit.1.fullResponse) ∧
      r.persisted =
        (if r.finalResponse = "" then []
         else [⟨sessionId, "assistant", r.finalResponse, assistantModel⟩]) ∧
      AskService.processStream parse steps sessionId aborted assistantModel true =
        AskService.processStream parse steps sessionId aborted assistantModel false := by
  intro parse steps sessionId aborted assistantModel dbSaveFails
  refine ⟨rfl, ?_, rfl, ?_, rfl⟩
  · simp only [AskService.processStream]
    split_ifs <;> simp
  · simp only [AskService.processStream]
    split_ifs <;> simp_all

/-- C9 counterexample: the payload "[1]" is valid JSON but parses to an
array, not a JSON object; the claim therefore says it is silently dropped,
yet the handler (whose guard is JavaScript `typeof msg !== 'object'`, which
arrays satisfy) stamps the provider identity onto it and invokes the
callback. -/
theorem C9_stt_inbound_filtering_counterexample :
    parseFixture "[1]" = some (JsValue.jarr [JsValue.jnum 1]) ∧
    Adapter.sttOnMessage parseFixture "[1]" =
      some ⟨JsValue.jarr [JsValue.jnum 1], "openai"⟩ := ⟨rfl, rfl⟩

/-- C9 (amended): an empty payload, the literal "null", or the sentinel
"[DONE]" causes no callback invocation; a payload that fails to parse as
JSON, or parses to null or a primitive, is silently dropped; and every
payload parsing to a JSON object or array is tagged with provider identity
"openai" before being handed to the onmessage callback. -/
theorem C9_stt_inbound_filtering :
    ∀ (parse : String → Option JsValue) (data : String),
      ((data = "" ∨ data = "null" ∨ data = "[DONE]") →
        Adapter.sttOnMessage parse data = none) ∧
      (parse data = none → Adapter.sttOnMessage parse data = none) ∧
      (∀ v, parse data = some v → jsTruthy v = false ∨ jsTypeof v ≠ "object" →
        Adapter.sttOnMessage parse data = none) ∧
      (∀ v, ¬(data = "" ∨ data = "null" ∨ data = "[DONE]") → parse data = some v →
        jsTruthy v = true → jsTypeof v = "object" →
        Adapter.sttOnMessage parse data = some ⟨v, "openai"⟩) := by
  intro parse data
  refine ⟨fun h => ?_, fun h => ?_, fun v hv hdrop => ?_, fun v hne hv htr hty => ?_⟩
  · simp [Adapter.sttOnMessage, h]
  · simp only [Adapter.sttOnMessage, h]
    split <;> rfl
  · simp only [Adapter.sttOnMessage, hv]
    rcases hdrop with hd | hd <;> split <;> simp [hd]
  · simp [Adapter.sttOnMessage, hne, hv, htr, hty]

/-- Witness for the amended C9 on concrete frames: the literal "null" and an
unparseable frame are dropped; an object frame is tagged and delivered. -/
theorem C9_stt_inbound_filtering_witness :
    Adapter.sttOnMessage parseFixture "null" = none ∧
    Adapter.sttOnMessage parseFixture "bogus" = none ∧
    Adapter.sttOnMessage parseFixture jsonHel =
      some ⟨JsValue.jobj [("delta", JsValue.jstr "Hel")], "openai"⟩ := by
  refine ⟨?_, ?_, ?_⟩
  · exact (C9_stt_inbound_filtering parseFixture "null").1 (by simp)
  · exact (C9_stt_inbound_filtering parseFixture "bogus").2.1 rfl
  · exact (C9_stt_inbound_filtering parseFixture jsonHel).2.2.2
      (JsValue.jobj [("delta", JsValue.jstr "Hel")]) (by decide) rfl rfl rfl

/-- The controller-lifecycle invariant holds in the constructor state. -/
theorem controllerInv_initControllers :
    AskService.ControllerInv AskService.initControllers := by
  refine ⟨?_, ?_, ?_⟩ <;> simp [AskService.initControllers]

/-- The controller-lifecycle invariant is preserved by every operation. -/
theorem controllerInv_stepOp (s : AskService.ControllerState) (op : AskService.AskOp)
    (h : AskService.ControllerInv s) : AskService.ControllerInv (AskService.stepOp s op) := by
  obtain ⟨h1, h2, h3⟩ := h
  cases op with
  | newRequest =>
    cases hl : s.live with
    | none =>
      refine ⟨?_, ?_, ?_⟩ <;> simp only [AskService.stepOp, hl]
      · intro c hc
        exact Nat.lt_succ_of_lt (h1 c hc)
      · intro c hc
        obtain rfl : s.nextId = c := by simpa using hc
        refine ⟨Nat.lt_succ_self _, fun hmem => ?_⟩
        exact absurd (h1 _ hmem) (Nat.lt_irrefl _)
      · intro c hc hne
        have hcn : c ≠ s.nextId := fun heq => hne (by simp [heq])
        exact h3 c (by omega) (by simp [hl])
    | some c0 =>
      have hc0 := h2 c0 hl
      refine ⟨?_, ?_, ?_⟩ <;>
        simp only [AskService.stepOp, hl, AskService.abortController]
      · intro c hc
        simp only [List.mem_cons] at hc
        rcases hc with rfl | hc
        · exact Nat.lt_succ_of_lt hc0.1
        · exact Nat.lt_succ_of_lt (h1 c hc)
      · intro c hc
        obtain rfl : s.nextId = c := by simpa using hc
        refine ⟨Nat.lt_succ_self _, fun hmem => ?_⟩
        simp only [List.mem_cons] at hmem
        rcases hmem with rfl | hmem
        · exact Nat.lt_irrefl _ hc0.1
        · exact absurd (h1 _ hmem) (Nat.lt_irrefl _)
      · intro c hc hne
        have hcn : c ≠ s.nextId := fun heq => hne (by simp [heq])
        by_cases hcc : c = c0
        · simp [hcc]
        · have := h3 c (by omega)
            (by simp only [hl, ne_eq, Option.some.injEq]; exact fun heq => hcc heq.symm)
          exact List.mem_cons_of_mem _ this
  | attachReader c' =>
    exact ⟨h1, h2, h3⟩
  | closeWindow =>
    cases hl : s.live with
    | none =>
      simpa [AskService.stepOp, hl] using ⟨h1, h2, h3⟩
    | some c0 =>
      have hc0 := h2 c0 hl
      refine ⟨?_, ?_, ?_⟩ <;>
        simp only [AskService.stepOp, hl, AskService.abortController]
      · intro c hc
        simp only [List.mem_cons] at hc
        rcases hc with rfl | hc
        · exact hc0.1
        · exact h1 c hc
      · intro c hc
        simp at hc
      · intro c hc _
        by_cases hcc : c = c0
        · simp [hcc]
        · have := h3 c hc
            (by simp only [hl, ne_eq, Option.some.injEq]; exact fun heq => hcc heq.symm)
          exact List.mem_cons_of_mem _ this

/-- The controller-lifecycle invariant holds after every operation trace. -/
theorem controllerInv_runOps (ops : List AskService.AskOp) :
    AskService.ControllerInv (AskService.runOps ops) := by
  suffices h : ∀ s, AskService.ControllerInv s →
      AskService.ControllerInv (ops.foldl AskService.stepOp s) from
    h _ controllerInv_initControllers
  induction ops with
  | nil => exact fun s hs => hs
  | cons op rest ih =>
    exact fun s hs => ih _ (controllerInv_stepOp s op hs)

/-- C2 counterexample: request A installs controller 0; request B supersedes
it while A is still awaiting its stream, aborting controller 0 before any
reader was attached; A then resumes and registers its reader-cancel listener
on controller 0's already-aborted signal, which never fires.  After the
trace, controller 0 is aborted and has a registered reader, but that reader
was never cancelled — so the superseded request's token broadcasts are free
to appear, refuting the claim as stated. -/
theorem C2_cancellation_supersession_counterexample :
    0 ∈ (AskService.runOps
          [.newRequest, .newRequest, .attachReader 0]).aborted ∧
    0 ∈ (AskService.runOps
          [.newRequest, .newRequest, .attachReader 0]).readers ∧
    0 ∉ (AskService.runOps
          [.newRequest, .newRequest, .attachReader 0]).cancelledReaders := by
  refine ⟨?_, ?_, ?_⟩ <;> decide

/-- C2 (amended): every sendMessage call aborts the previous in-flight
controller before installing a fresh one, so after any operation trace at
most one controller is live — the current slot holder is never aborted and
every other controller ever created is aborted — and a superseded request
whose reader was already attached when the abort fired has that reader
cancelled.  (A reader attached after the abort, by a request superseded
while still awaiting its stream, is never cancelled: the listener is
registered on an already-aborted signal.) -/
theorem C2_cancellation_supersession :
    (∀ ops : List AskService.AskOp,
      (∀ c, (AskService.runOps ops).live = some c →
        c ∉ (AskService.runOps ops).aborted) ∧
      (∀ c, c < (AskService.runOps ops).nextId →
        (AskService.runOps ops).live ≠ some c → c ∈ (AskService.runOps ops).aborted)) ∧
    (∀ (s : AskService.ControllerState) (c : Nat), s.live = some c →
      c ∈ (AskService.stepOp s .newRequest).aborted ∧
      (AskService.stepOp s .newRequest).live = some s.nextId ∧
      (c ∈ s.readers → c ∈ (AskService.stepOp s .newRequest).cancelledReaders)) := by
  constructor
  · intro ops
    obtain ⟨h1, h2, h3⟩ := controllerInv_runOps ops
    exact ⟨fun c hc => (h2 c hc).2, h3⟩
  · intro s c hl
    refine ⟨?_, ?_, fun hr => ?_⟩
    · simp [AskService.stepOp, hl, AskService.abortController]
    · simp [AskService.stepOp, hl]
    · simp [AskService.stepOp, hl, AskService.abortController, hr]

/-- Witness for the amended C2: after two sends the live controller 1 is
unaborted while controller 0 is aborted; and superseding a request whose
reader is already attached cancels that reader. -/
theorem C2_cancellation_supersession_witness :
    1 ∉ (AskService.runOps [.newRequest, .newRequest]).aborted ∧
    0 ∈ (AskService.runOps [.newRequest, .newRequest]).aborted ∧
    0 ∈ (AskService.stepOp (AskService.runOps [.newRequest, .attachReader 0])
          .newRequest).cancelledReaders := by
  refine ⟨?_, ?_, ?_⟩
  · exact (C2_cancellation_supersession.1 [.newRequest, .newRequest]).1 1 (by decide)
  · exact (C2_cancellation_supersession.1 [.newRequest, .newRequest]).2 0 (by decide)
      (by decide)
  · exact (C2_cancellation_supersession.2
      (AskService.runOps [.newRequest, .attachReader 0]) 0 (by decide)).2.2 (by decide)

end Glass
